import Mathlib

/-!
Verification of the claim-reconciliation driver in
src/offchain/dispatcher/src/drivers/blockchain.rs.

The embedding below translates the source directly:

* Ethereum addresses (H160) and opaque word values (H256, u64 indices and
  timestamps) are modelled as Nat; the code never performs arithmetic on
  them, only equality tests and comparisons, so no wraparound is involved.
* The im::HashMap from application address to DAppClaims is modelled as an
  association list; the get operation is List.lookup.
* The BrokerReceive feed is modelled as the list of poll results the broker
  produces during one pass: each element is either an error or a yielded
  claim, and the end of the list stands for the terminating Ok(None) poll.
* The TxSender capability is an abstract type TS together with a step
  function send : TS -> H -> Except E TS; a call consumes the current
  capability value and either fails or returns the next one.
* The react loop is instrumented with the list of claims whose submission
  call succeeded, in call order: this is the observable effect sequence of
  a pass, which the Rust function performs but does not return.
-/

set_option autoImplicit false

/-- A confirmed claim as stored in the on-chain history
(types::foldables::claims::Claim): an epoch hash, an input-index range and
a timestamp.  The driver never inspects these fields. -/
structure Claim where
  epoch_hash : Nat
  start_input_index : Nat
  end_input_index : Nat
  claim_timestamp : Nat
deriving DecidableEq

/-- types::foldables::claims::DAppClaims: the confirmed claims of one
application, in confirmation order. -/
structure DAppClaims where
  claims : List Claim
deriving DecidableEq

/-- types::foldables::claims::History: the folded on-chain view, mapping an
application address to its confirmed claims.  The im::HashMap is modelled
as an association list; get is List.lookup. -/
structure History where
  history_address : Nat
  dapp_claims : List (Nat × DAppClaims)
deriving DecidableEq

/-- fn claims_sent(history, dapp_address): the number of claims already
confirmed for dapp_address, 0 when the snapshot has no entry for it. -/
def claims_sent (history : History) (dapp_address : Nat) : Nat :=
  match history.dapp_claims.lookup dapp_address with
  | some c => c.claims.length
  | none => 0

/-- crate::machine::RollupClaim as yielded by the broker: an opaque hash
(the 32-byte payload, kept abstract as a type parameter H) and a u64
sequence number. -/
structure RollupClaim (H : Type) where
  hash : H
  number : Nat
deriving DecidableEq

/-- pub struct BlockchainDriver: its only field is the application address. -/
structure BlockchainDriver where
  dapp_address : Nat
deriving DecidableEq

/-- BlockchainDriver::new. -/
def BlockchainDriver.new (dapp_address : Nat) : BlockchainDriver :=
  ⟨dapp_address⟩

/-- The submission test of the react loop: claim.number > claims_sent. -/
def qualifies {H : Type} (cs : Nat) (c : RollupClaim H) : Bool :=
  decide (c.number > cs)

/-- The while-let loop of BlockchainDriver::react.  The feed is the list of
broker poll results for the pass (list end = the Ok(None) poll); cs is the
claims_sent value computed before the loop; tx_sender is threaded linearly
through the submission calls.  Returns the list of successfully submitted
claims in submission order, paired with the Rust return value. -/
def reactLoop {H TS E : Type} (send : TS → H → Except E TS) (cs : Nat) :
    List (Except E (RollupClaim H)) → TS →
      List (RollupClaim H) × Except E TS
  | [], tx_sender => ([], Except.ok tx_sender)
  | Except.error e :: _, _ => ([], Except.error e)
  | Except.ok claim :: rest, tx_sender =>
    if claim.number > cs then
      match send tx_sender claim.hash with
      | Except.error e => ([], Except.error e)
      | Except.ok tx2 =>
        (claim :: (reactLoop send cs rest tx2).1,
          (reactLoop send cs rest tx2).2)
    else
      reactLoop send cs rest tx_sender

/-- BlockchainDriver::react: compute claims_sent for the target address,
then drain the feed, submitting every claim numbered strictly above it. -/
def BlockchainDriver.react {H TS E : Type} (self : BlockchainDriver)
    (history : History) (feed : List (Except E (RollupClaim H)))
    (send : TS → H → Except E TS) (tx_sender : TS) :
    List (RollupClaim H) × Except E TS :=
  reactLoop send (claims_sent history self.dapp_address) feed tx_sender

/-- BlockchainDriver::react with the full state made explicit: the source
takes self and history by shared reference, so the translation threads both
through the pass unchanged and returns them with the pass result, making
frame properties statable. -/
def BlockchainDriver.reactSt {H TS E : Type} (self : BlockchainDriver)
    (history : History) (feed : List (Except E (RollupClaim H)))
    (send : TS → H → Except E TS) (tx_sender : TS) :
    BlockchainDriver × History × (List (RollupClaim H) × Except E TS) :=
  (self, history,
    reactLoop send (claims_sent history self.dapp_address) feed tx_sender)

/-- Specification-side sequential submission: one call per claim in list
order, each call taking the capability returned by the previous call, with
the hash of the claim as payload.  Compared against the implementation in
the capability-threading theorem. -/
def sendAll {H TS E : Type} (send : TS → H → Except E TS) :
    List (RollupClaim H) → TS → Except E TS
  | [], tx_sender => Except.ok tx_sender
  | c :: rest, tx_sender =>
    match send tx_sender c.hash with
    | Except.error e => Except.error e
    | Except.ok tx2 => sendAll send rest tx2

/-! Concrete instances used by scenario theorems and witnesses. -/

/-- A concrete snapshot: five confirmed claims for application address 1,
two for address 2 (the setup of the test_react tests). -/
def hist5 : History :=
  ⟨0, [(1, ⟨[⟨0, 0, 5, 0⟩, ⟨11, 10, 15, 1⟩, ⟨12, 20, 25, 2⟩,
             ⟨13, 30, 35, 3⟩, ⟨14, 40, 45, 4⟩]⟩),
       (2, ⟨[⟨15, 50, 55, 5⟩, ⟨16, 60, 65, 6⟩]⟩)]⟩

/-- A concrete submitter modelled on the mock TxSender of the tests: the
capability value counts the submissions performed so far and every
submission succeeds. -/
def sendCount : Nat → Nat → Except Unit Nat :=
  fun tx_sender _hash => Except.ok (tx_sender + 1)

/-- The interleaved feed of the test
test_react_interleaved_old_new_claims_sent_5_claims: claims numbered
[1,5,6,2,3,7,8,4,5,9,10], each with its number doubling as its hash. -/
def feed11 : List (Except Unit (RollupClaim Nat)) :=
  [Except.ok ⟨1, 1⟩, Except.ok ⟨5, 5⟩, Except.ok ⟨6, 6⟩, Except.ok ⟨2, 2⟩,
   Except.ok ⟨3, 3⟩, Except.ok ⟨7, 7⟩, Except.ok ⟨8, 8⟩, Except.ok ⟨4, 4⟩,
   Except.ok ⟨5, 5⟩, Except.ok ⟨9, 9⟩, Except.ok ⟨10, 10⟩]

/-! Helper lemmas about the loop. -/

theorem qualifies_iff {H : Type} (cs : Nat) (c : RollupClaim H) :
    qualifies cs c = true ↔ cs < c.number := by
  simp [qualifies]

theorem reactLoop_ok_trace {H TS E : Type} (send : TS → H → Except E TS)
    (cs : Nat) (feed : List (Except E (RollupClaim H))) :
    ∀ (tx_sender r : TS),
      (reactLoop send cs feed tx_sender).2 = Except.ok r →
      (reactLoop send cs feed tx_sender).1 =
        (feed.filterMap Except.toOption).filter (qualifies cs) := by
  induction feed with
  | nil => intro tx r h; simp [reactLoop]
  | cons x rest ih =>
    intro tx r h
    cases x with
    | error e => simp [reactLoop] at h
    | ok claim =>
      by_cases hq : claim.number > cs
      · rw [reactLoop, if_pos hq] at h ⊢
        cases hs : send tx claim.hash with
        | error e => rw [hs] at h; simp at h
        | ok tx2 =>
          rw [hs] at h
          dsimp only at h ⊢
          have hrest := ih tx2 r h
          simp [List.filterMap_cons, Except.toOption, List.filter_cons,
            qualifies, hq, hrest]
      · rw [reactLoop, if_neg hq] at h ⊢
        have hrest := ih tx r h
        simp [List.filterMap_cons, Except.toOption, List.filter_cons,
          qualifies, hq, hrest]

theorem reactLoop_nil {H TS E : Type} (send : TS → H → Except E TS)
    (cs : Nat) (tx_sender : TS) :
    reactLoop send cs ([] : List (Except E (RollupClaim H))) tx_sender =
      ([], Except.ok tx_sender) := rfl

theorem reactLoop_feed_error {H TS E : Type} (send : TS → H → Except E TS)
    (cs : Nat) (e : E) (rest : List (Except E (RollupClaim H)))
    (tx_sender : TS) :
    reactLoop send cs (Except.error e :: rest) tx_sender =
      ([], Except.error e) := rfl

theorem reactLoop_send_ok {H TS E : Type} {send : TS → H → Except E TS}
    {cs : Nat} {claim : RollupClaim H} {tx_sender tx2 : TS}
    (hq : claim.number > cs)
    (hs : send tx_sender claim.hash = Except.ok tx2)
    (rest : List (Except E (RollupClaim H))) :
    reactLoop send cs (Except.ok claim :: rest) tx_sender =
      (claim :: (reactLoop send cs rest tx2).1,
        (reactLoop send cs rest tx2).2) := by
  rw [reactLoop, if_pos hq, hs]

theorem reactLoop_send_error {H TS E : Type} {send : TS → H → Except E TS}
    {cs : Nat} {claim : RollupClaim H} {tx_sender : TS} {e : E}
    (hq : claim.number > cs)
    (hs : send tx_sender claim.hash = Except.error e)
    (rest : List (Except E (RollupClaim H))) :
    reactLoop send cs (Except.ok claim :: rest) tx_sender =
      ([], Except.error e) := by
  rw [reactLoop, if_pos hq, hs]

theorem reactLoop_skip {H TS E : Type} {send : TS → H → Except E TS}
    {cs : Nat} {claim : RollupClaim H}
    (hq : ¬ claim.number > cs)
    (rest : List (Except E (RollupClaim H))) (tx_sender : TS) :
    reactLoop send cs (Except.ok claim :: rest) tx_sender =
      reactLoop send cs rest tx_sender := by
  rw [reactLoop, if_neg hq]

theorem reactLoop_append_ok {H TS E : Type} (send : TS → H → Except E TS)
    (cs : Nat) (xs ys : List (Except E (RollupClaim H))) :
    ∀ (tx_sender tx2 : TS),
      (reactLoop send cs xs tx_sender).2 = Except.ok tx2 →
      reactLoop send cs (xs ++ ys) tx_sender =
        ((reactLoop send cs xs tx_sender).1 ++
            (reactLoop send cs ys tx2).1,
          (reactLoop send cs ys tx2).2) := by
  induction xs with
  | nil =>
    intro tx tx2 h
    rw [reactLoop_nil] at h ⊢
    cases h
    simp [reactLoop_nil]
  | cons x rest ih =>
    intro tx tx2 h
    cases x with
    | error e => rw [reactLoop_feed_error] at h; simp at h
    | ok claim =>
      rw [List.cons_append]
      by_cases hq : claim.number > cs
      · cases hs : send tx claim.hash with
        | error e =>
          rw [reactLoop_send_error hq hs] at h
          simp at h
        | ok tx3 =>
          rw [reactLoop_send_ok hq hs] at h
          dsimp only at h
          rw [reactLoop_send_ok hq hs, reactLoop_send_ok hq hs rest,
            ih tx3 tx2 h]
          simp
      · rw [reactLoop_skip hq] at h
        rw [reactLoop_skip hq, reactLoop_skip hq rest]
        exact ih tx tx2 h

theorem reactLoop_trace_mem {H TS E : Type} (send : TS → H → Except E TS)
    (cs : Nat) (feed : List (Except E (RollupClaim H))) :
    ∀ (tx_sender : TS) (c : RollupClaim H),
      c ∈ (reactLoop send cs feed tx_sender).1 → c.number > cs := by
  induction feed with
  | nil => intro tx c h; rw [reactLoop_nil] at h; simp at h
  | cons x rest ih =>
    intro tx c h
    cases x with
    | error e => rw [reactLoop_feed_error] at h; simp at h
    | ok claim =>
      by_cases hq : claim.number > cs
      · cases hs : send tx claim.hash with
        | error e => rw [reactLoop_send_error hq hs] at h; simp at h
        | ok tx2 =>
          rw [reactLoop_send_ok hq hs] at h
          dsimp only at h
          rcases List.mem_cons.mp h with hc | hc
          · exact hc ▸ hq
          · exact ih tx2 c hc
      · rw [reactLoop_skip hq] at h
        exact ih tx c h

/-! Claim theorems. -/

/-- Claim C1: on a successful pass, the list of submitted claims is exactly
the list of feed yields whose number is strictly greater than the
confirmed-claim count of the target address, in yield order, with one
submission per qualifying yield. -/
theorem react_ok_submits_exactly_new {H TS E : Type}
    (self : BlockchainDriver) (history : History)
    (feed : List (Except E (RollupClaim H)))
    (send : TS → H → Except E TS) (tx_sender r : TS)
    (h : (self.react history feed send tx_sender).2 = Except.ok r) :
    (self.react history feed send tx_sender).1 =
      (feed.filterMap Except.toOption).filter
        (qualifies (claims_sent history self.dapp_address)) :=
  reactLoop_ok_trace send (claims_sent history self.dapp_address) feed
    tx_sender r h

/-- Witness for C1 at the interleaved-feed scenario. -/
theorem react_ok_submits_exactly_new_witness :
    (BlockchainDriver.react (⟨1⟩ : BlockchainDriver) hist5 feed11
        sendCount 0).1 =
      (feed11.filterMap Except.toOption).filter
        (qualifies (claims_sent hist5 1)) :=
  react_ok_submits_exactly_new ⟨1⟩ hist5 feed11 sendCount 0 5 rfl

/-- Claim C2: the submission threshold computed at pass start, claims_sent,
equals the number of claims the snapshot records for the address, and
equals 0 when the snapshot has no entry for that address. -/
theorem claims_sent_counts (history : History) (addr : Nat) :
    (∀ c : DAppClaims, history.dapp_claims.lookup addr = some c →
        claims_sent history addr = c.claims.length) ∧
    (history.dapp_claims.lookup addr = none →
        claims_sent history addr = 0) := by
  constructor
  · intro c hc; simp [claims_sent, hc]
  · intro hc; simp [claims_sent, hc]

/-- Witness for C2: hist5 records 5 claims for address 1 and no entry for
address 7. -/
theorem claims_sent_counts_witness :
    claims_sent hist5 1 = 5 ∧ claims_sent hist5 7 = 0 :=
  ⟨(claims_sent_counts hist5 1).1
      ⟨[⟨0, 0, 5, 0⟩, ⟨11, 10, 15, 1⟩, ⟨12, 20, 25, 2⟩,
        ⟨13, 30, 35, 3⟩, ⟨14, 40, 45, 4⟩]⟩ rfl,
    (claims_sent_counts hist5 7).2 rfl⟩

/-- Claim C3 counterexample: hist5 records 5 confirmed claims for address 1,
yet the feed claim numbered exactly 5 is skipped: the pass succeeds with an
empty submission list, so the claim numbered exactly the confirmed count is
not submitted, contradicting the claim as stated. -/
theorem claim_numbered_count_skipped_cex :
    BlockchainDriver.react (⟨1⟩ : BlockchainDriver) hist5
        [Except.ok (⟨5, 5⟩ : RollupClaim Nat)] sendCount 0
      = ([], Except.ok 0) ∧
    ¬ ((⟨5, 5⟩ : RollupClaim Nat) ∈
      (BlockchainDriver.react (⟨1⟩ : BlockchainDriver) hist5
        [Except.ok (⟨5, 5⟩ : RollupClaim Nat)] sendCount 0).1) := by
  refine ⟨rfl, ?_⟩
  intro h
  rw [show (BlockchainDriver.react (⟨1⟩ : BlockchainDriver) hist5
      [Except.ok (⟨5, 5⟩ : RollupClaim Nat)] sendCount 0).1
      = ([] : List (RollupClaim Nat)) from rfl] at h
  simp at h

/-- Claim C3 amended: every submitted claim has a number strictly greater
than the confirmed-claim count of the target address; in particular a feed
claim numbered exactly that count is treated as already confirmed and is
never submitted. -/
theorem submitted_number_exceeds_count {H TS E : Type}
    (self : BlockchainDriver) (history : History)
    (feed : List (Except E (RollupClaim H)))
    (send : TS → H → Except E TS) (tx_sender : TS) (c : RollupClaim H)
    (h : c ∈ (self.react history feed send tx_sender).1) :
    c.number > claims_sent history self.dapp_address :=
  reactLoop_trace_mem send (claims_sent history self.dapp_address) feed
    tx_sender c h

/-- Witness for the amended C3: the claim numbered 6 submitted over hist5
has a number above the confirmed count 5. -/
theorem submitted_number_exceeds_count_witness :
    (⟨6, 6⟩ : RollupClaim Nat).number > claims_sent hist5 1 :=
  submitted_number_exceeds_count ⟨1⟩ hist5
    [Except.ok (⟨6, 6⟩ : RollupClaim Nat)] sendCount 0 ⟨6, 6⟩ (by decide)

/-- Claim C4: with 5 claims confirmed for the target address and the
interleaved feed numbered [1,5,6,2,3,7,8,4,5,9,10], exactly the claims
numbered 6,7,8,9,10 are submitted, in that relative order, 5 submissions in
total, and the pass succeeds. -/
theorem react_interleaved_scenario :
    BlockchainDriver.react (⟨1⟩ : BlockchainDriver) hist5 feed11 sendCount 0
      = ([⟨6, 6⟩, ⟨7, 7⟩, ⟨8, 8⟩, ⟨9, 9⟩, ⟨10, 10⟩], Except.ok 5) ∧
    (BlockchainDriver.react (⟨1⟩ : BlockchainDriver) hist5 feed11
        sendCount 0).1.length = 5 :=
  ⟨rfl, rfl⟩

/-- Claim C7: an empty feed (the first poll already reports no claim)
performs zero submissions, succeeds, and returns the very capability value
that was passed in. -/
theorem react_empty_feed {H TS E : Type} (self : BlockchainDriver)
    (history : History) (send : TS → H → Except E TS) (tx_sender : TS) :
    self.react history ([] : List (Except E (RollupClaim H))) send tx_sender
      = ([], Except.ok tx_sender) := rfl

/-- A concrete submitter that fails on hash 13 and succeeds, counting,
otherwise. -/
def sendFail13 : Nat → Nat → Except Unit Nat :=
  fun tx_sender hash =>
    if hash = 13 then Except.error () else Except.ok (tx_sender + 1)

/-- Claim C5: after a prefix of the feed has been processed successfully, a
feed error aborts the pass with that error, and a failing submission aborts
the pass with that error; nothing further is polled or submitted, and the
submissions already performed are exactly the qualifying claims of the
processed prefix, in feed order, and are not undone. -/
theorem react_error_aborts {H TS E : Type}
    (self : BlockchainDriver) (history : History)
    (pre rest : List (Except E (RollupClaim H)))
    (send : TS → H → Except E TS) (tx_sender tx2 : TS)
    (l : List (RollupClaim H))
    (hpre : self.react history pre send tx_sender = (l, Except.ok tx2)) :
    (∀ e : E,
        self.react history (pre ++ Except.error e :: rest) send tx_sender
          = (l, Except.error e)) ∧
    (∀ (c : RollupClaim H) (e : E),
        c.number > claims_sent history self.dapp_address →
        send tx2 c.hash = Except.error e →
        self.react history (pre ++ Except.ok c :: rest) send tx_sender
          = (l, Except.error e)) ∧
    l = (pre.filterMap Except.toOption).filter
          (qualifies (claims_sent history self.dapp_address)) := by
  have hpre2 : reactLoop send (claims_sent history self.dapp_address) pre
      tx_sender = (l, Except.ok tx2) := hpre
  have h2 : (reactLoop send (claims_sent history self.dapp_address) pre
      tx_sender).2 = Except.ok tx2 := by rw [hpre2]
  refine ⟨?_, ?_, ?_⟩
  · intro e
    show reactLoop send (claims_sent history self.dapp_address)
        (pre ++ Except.error e :: rest) tx_sender = (l, Except.error e)
    rw [reactLoop_append_ok send (claims_sent history self.dapp_address)
        pre (Except.error e :: rest) tx_sender tx2 h2, hpre2,
      reactLoop_feed_error]
    simp
  · intro c e hq hs
    show reactLoop send (claims_sent history self.dapp_address)
        (pre ++ Except.ok c :: rest) tx_sender = (l, Except.error e)
    rw [reactLoop_append_ok send (claims_sent history self.dapp_address)
        pre (Except.ok c :: rest) tx_sender tx2 h2, hpre2,
      reactLoop_send_error hq hs]
    simp
  · have htr := reactLoop_ok_trace send
      (claims_sent history self.dapp_address) pre tx_sender tx2 h2
    rw [hpre2] at htr
    exact htr

/-- Witness for C5: one successful submission, then a feed error aborts the
pass with exactly that one submission performed. -/
theorem react_error_aborts_witness :
    BlockchainDriver.react (⟨1⟩ : BlockchainDriver) hist5
        ([Except.ok (⟨6, 6⟩ : RollupClaim Nat)] ++
          Except.error () :: [Except.ok (⟨7, 7⟩ : RollupClaim Nat)])
        sendFail13 0
      = ([⟨6, 6⟩], Except.error ()) :=
  (react_error_aborts ⟨1⟩ hist5 [Except.ok ⟨6, 6⟩] [Except.ok ⟨7, 7⟩]
      sendFail13 0 1 [⟨6, 6⟩] rfl).1 ()

/-- Claim C6: the threshold is not advanced after a submission: both
occurrences of a duplicated qualifying claim are compared against the same
pass-start threshold, so both are submitted. -/
theorem duplicate_claim_submitted_twice {H TS E : Type}
    (self : BlockchainDriver) (history : History) (c : RollupClaim H)
    (send : TS → H → Except E TS) (tx_sender tx2 tx3 : TS)
    (hq : c.number > claims_sent history self.dapp_address)
    (h1 : send tx_sender c.hash = Except.ok tx2)
    (h2 : send tx2 c.hash = Except.ok tx3) :
    self.react history [Except.ok c, Except.ok c] send tx_sender
      = ([c, c], Except.ok tx3) := by
  show reactLoop send (claims_sent history self.dapp_address)
      [Except.ok c, Except.ok c] tx_sender = ([c, c], Except.ok tx3)
  rw [reactLoop_send_ok hq h1, reactLoop_send_ok hq h2, reactLoop_nil]

/-- Witness for C6: the claim numbered 6 yielded twice over hist5 is
submitted twice in one pass. -/
theorem duplicate_claim_submitted_twice_witness :
    BlockchainDriver.react (⟨1⟩ : BlockchainDriver) hist5
        [Except.ok (⟨6, 6⟩ : RollupClaim Nat), Except.ok ⟨6, 6⟩] sendCount 0
      = ([⟨6, 6⟩, ⟨6, 6⟩], Except.ok 2) :=
  duplicate_claim_submitted_twice ⟨1⟩ hist5 ⟨6, 6⟩ sendCount 0 1 2
    (by decide) rfl rfl

/-- Claim C8: the capability is threaded linearly: for an error-free feed,
the capability result of react equals the sequential fold of the submission
operation over the qualifying claims in feed order, each call consuming the
capability returned by the previous call, with the hash of the claim as the
payload. -/
theorem react_threads_capability {H TS E : Type}
    (self : BlockchainDriver) (history : History)
    (yields : List (RollupClaim H)) (send : TS → H → Except E TS)
    (tx_sender : TS) :
    (self.react history (yields.map Except.ok) send tx_sender).2 =
      sendAll send
        (yields.filter (qualifies (claims_sent history self.dapp_address)))
        tx_sender := by
  show (reactLoop send (claims_sent history self.dapp_address)
      (yields.map Except.ok) tx_sender).2 = _
  generalize claims_sent history self.dapp_address = cs
  induction yields generalizing tx_sender with
  | nil => rfl
  | cons c rest ih =>
    rw [List.map_cons, List.filter_cons]
    by_cases hq : c.number > cs
    · rw [if_pos ((qualifies_iff cs c).mpr hq)]
      cases hs : send tx_sender c.hash with
      | error e =>
        rw [reactLoop_send_error hq hs, sendAll, hs]
      | ok tx2 =>
        rw [reactLoop_send_ok hq hs]
        dsimp only
        rw [ih tx2, sendAll, hs]
    · rw [if_neg (fun hc => hq ((qualifies_iff cs c).mp hc)),
        reactLoop_skip hq]
      exact ih tx_sender

/-- Claim C9: a pass never mutates the snapshot or the driver: the
state-explicit translation returns the very driver value and the very
snapshot that were passed in, the application address is unchanged, and the
pass result is exactly that of react, whose only effects are the recorded
submission calls. -/
theorem react_frame {H TS E : Type} (self : BlockchainDriver)
    (history : History) (feed : List (Except E (RollupClaim H)))
    (send : TS → H → Except E TS) (tx_sender : TS) :
    (self.reactSt history feed send tx_sender).1 = self ∧
    (self.reactSt history feed send tx_sender).2.1 = history ∧
    ((self.reactSt history feed send tx_sender).1).dapp_address
      = self.dapp_address ∧
    (self.reactSt history feed send tx_sender).2.2
      = self.react history feed send tx_sender :=
  ⟨rfl, rfl, rfl, rfl⟩

/-- Claim C10: react reads the snapshot only through the claim count of its
own address: two snapshots with the same count for the driver address give
identical submissions and an identical result, whatever the recorded claim
contents or the entries for other addresses. -/
theorem react_depends_only_on_count {H TS E : Type}
    (self : BlockchainDriver) (history1 history2 : History)
    (feed : List (Except E (RollupClaim H)))
    (send : TS → H → Except E TS) (tx_sender : TS)
    (h : claims_sent history1 self.dapp_address
      = claims_sent history2 self.dapp_address) :
    self.react history1 feed send tx_sender
      = self.react history2 feed send tx_sender := by
  show reactLoop send (claims_sent history1 self.dapp_address) feed tx_sender
      = reactLoop send (claims_sent history2 self.dapp_address) feed tx_sender
  rw [h]

/-- A second concrete snapshot: the same claim count for address 1 as hist5
but entirely different claim contents, a different history address and an
entry for address 3 instead of 2. -/
def hist5b : History :=
  ⟨99, [(1, ⟨[⟨7, 1, 6, 9⟩, ⟨8, 2, 7, 9⟩, ⟨9, 3, 8, 9⟩,
              ⟨10, 4, 9, 9⟩, ⟨21, 5, 10, 9⟩]⟩),
        (3, ⟨[⟨22, 0, 5, 0⟩]⟩)]⟩

/-- Witness for C10: hist5 and hist5b differ everywhere except the claim
count of address 1, and react agrees on them. -/
theorem react_depends_only_on_count_witness :
    BlockchainDriver.react (⟨1⟩ : BlockchainDriver) hist5 feed11 sendCount 0
      = BlockchainDriver.react ⟨1⟩ hist5b feed11 sendCount 0 :=
  react_depends_only_on_count ⟨1⟩ hist5 hist5b feed11 sendCount 0 rfl
